import Mathlib

/-!
Shallow embedding of the ember-bootstrap button widget.

Modern component: src/addon/components/bs-button.js (class Button).
Legacy component: src/unnamed/part_000 (Ember.Component.extend button).

JS strings that may be absent (undefined / null) are modelled as
Option String with none for absent; JS truthiness of a string is
"present and non-empty".
-/

namespace EmberBootstrap

/-- The four values of the modern component's tracked `state` field
(bs-button.js line 263): "default" > "pending" > "fulfilled" / "rejected". -/
inductive BtnState
  | default
  | pending
  | fulfilled
  | rejected
deriving DecidableEq, Repr

/-- The named arguments (this.args) read by the modern component's getters:
`icon` (bs-button.js line 225) and the per-state label arguments
looked up by the `text` getter (line 388). -/
structure Args where
  icon : Option String := none
  defaultText : Option String := none
  pendingText : Option String := none
  fulfilledText : Option String := none
  rejectedText : Option String := none
deriving DecidableEq, Repr

/-- Classification of the value returned by the external onClick callback,
by the only predicate the dispatcher applies to it
(bs-button.js line 406: `promise && typeof promise.then === 'function'`):
`thenable` is a truthy value exposing a `then` function; `nonThenable` is
any other return value (falsy, or without a `then` function). -/
inductive CbReturn
  | thenable
  | nonThenable
deriving DecidableEq, Repr

/-- Whether a future-like result settles successfully or fails. -/
inductive Outcome
  | success
  | failure
deriving DecidableEq, Repr

/-- The modern Button component (bs-button.js). Fields mirror the class
fields with their `@arg` defaults; `onClick` is none when the argument is
null or undefined, and `some r` when a callback is configured whose return
value is classified `r`. `isDestroyed` is the framework liveness flag the
dispatcher and the settlement handlers read. -/
structure Button where
  _disabled : Option Bool := none
  buttonType : String := "button"
  active : Bool := false
  block : Bool := false
  bubble : Bool := false
  iconActive : Option String := none
  iconInactive : Option String := none
  value : Nat := 0
  preventConcurrency : Bool := true
  state : BtnState := BtnState.default
  onClick : Option CbReturn := none
  isDestroyed : Bool := false
  args : Args := {}
deriving DecidableEq, Repr

/-- `isPending` (bs-button.js line 272): state equals 'pending'. -/
def Button.isPending (b : Button) : Bool :=
  decide (b.state = BtnState.pending)

/-- `isFulfilled` (bs-button.js line 282): state equals 'fulfilled'. -/
def Button.isFulfilled (b : Button) : Bool :=
  decide (b.state = BtnState.fulfilled)

/-- `isRejected` (bs-button.js line 292): state equals 'rejected'. -/
def Button.isRejected (b : Button) : Bool :=
  decide (b.state = BtnState.rejected)

/-- `isSettled` (bs-button.js line 302): fulfilled or rejected. -/
def Button.isSettled (b : Button) : Bool :=
  b.isFulfilled || b.isRejected

/-- `__disabled` (bs-button.js lines 147-153): an explicit `_disabled`
argument (non-null) wins; otherwise disabled while pending with
preventConcurrency. -/
def Button.__disabled (b : Button) : Bool :=
  match b._disabled with
  | some d => d
  | none => b.isPending && b.preventConcurrency

/-- JS `x || y` on possibly-absent strings: the left operand wins iff it is
truthy (present and non-empty); otherwise the right operand is returned. -/
def jsOrStr (x y : Option String) : Option String :=
  match x with
  | some s => if s = "" then y else some s
  | none => y

/-- The argument named `${state}Text` for each state, as looked up by
the `text` getter (bs-button.js line 388). -/
def Args.textFor (a : Args) : BtnState → Option String
  | BtnState.default => a.defaultText
  | BtnState.pending => a.pendingText
  | BtnState.fulfilled => a.fulfilledText
  | BtnState.rejected => a.rejectedText

/-- `text` getter (bs-button.js lines 387-389):
`this.args[state + 'Text'] || this.args.defaultText`. -/
def Button.text (b : Button) : Option String :=
  jsOrStr (b.args.textFor b.state) b.args.defaultText

/-- `icon` getter (bs-button.js lines 224-226):
`this.args.icon || (this.active ? this.iconActive : this.iconInactive)`. -/
def Button.icon (b : Button) : Option String :=
  jsOrStr b.args.icon (if b.active then b.iconActive else b.iconInactive)

/-- `resetState` action (bs-button.js lines 382-385): sets state to
'default' unconditionally. -/
def Button.resetState (b : Button) : Button :=
  { b with state := BtnState.default }

/-- The success handler registered on the promise (bs-button.js
lines 408-411): if the instance is not destroyed, set state 'fulfilled'. -/
def Button.onFulfill (b : Button) : Button :=
  if b.isDestroyed then b else { b with state := BtnState.fulfilled }

/-- The failure handler registered on the promise (bs-button.js
lines 412-416): if the instance is not destroyed, set state 'rejected'. -/
def Button.onReject (b : Button) : Button :=
  if b.isDestroyed then b else { b with state := BtnState.rejected }

/-- Delivery of a settlement to the modern handlers: the promise fires
exactly one of the two registered handlers. -/
def Button.settle (b : Button) : Outcome → Button
  | Outcome.success => b.onFulfill
  | Outcome.failure => b.onReject

/-- Observable result of one run of the click dispatcher: the component
afterwards, whether the external callback was invoked, whether settlement
handlers were registered on a returned promise, and whether
`e.stopPropagation()` was called on the originating event. -/
structure ClickOutcome where
  button : Button
  invoked : Bool
  registered : Bool
  stoppedPropagation : Bool
deriving DecidableEq, Repr

/-- `handleClick` (bs-button.js lines 395-424): return immediately when
onClick is null or undefined; otherwise, unless suppressed by the
concurrency guard (`!preventConcurrency || !this.isPending`), invoke the
callback, and when it returns a thenable and the instance is not destroyed,
set state 'pending' and register the settlement handlers; finally, unless
`bubble` is set, stop propagation of the event. -/
def Button.handleClick (b : Button) : ClickOutcome :=
  match b.onClick with
  | none =>
    { button := b, invoked := false, registered := false,
      stoppedPropagation := false }
  | some ret =>
    let step : Button × Bool × Bool :=
      if !b.preventConcurrency || !b.isPending then
        match ret with
        | CbReturn.thenable =>
          if !b.isDestroyed then
            ({ b with state := BtnState.pending }, true, true)
          else
            (b, true, false)
        | CbReturn.nonThenable => (b, true, false)
      else
        (b, false, false)
    { button := step.1, invoked := step.2.1, registered := step.2.2,
      stoppedPropagation := !b.bubble }

/-- Modelled from the spec: the component template, which is part of this
repository but not under src/, binds the element's `disabled` attribute to
`__disabled`, so an activation on an effectively disabled button aborts
before the click handler: the external callback is not invoked and no
state transition occurs, while event-propagation handling still applies
(spec section 4.2, steps 2, 3 and 6). When not effectively disabled the
activation runs `handleClick` from src. -/
def Button.activate (b : Button) : ClickOutcome :=
  if b.__disabled then
    { button := b, invoked := false, registered := false,
      stoppedPropagation := !b.bubble }
  else
    b.handleClick

/-- The four values of the legacy component's `textState` field
(part_000 line 99): 'default', 'pending', 'resolved', 'rejected'. -/
inductive LegacyTextState
  | default
  | pending
  | resolved
  | rejected
deriving DecidableEq, Repr

/-- The legacy button component (src/unnamed/part_000). Fields mirror the
declared properties with their defaults. `isDestroyed` is the framework
liveness flag; the legacy code never consults it. -/
structure LegacyButton where
  disabled : Bool := false
  buttonType : String := "button"
  active : Bool := false
  block : Bool := false
  toggle : Bool := false
  iconActive : Option String := none
  iconInactive : Option String := none
  value : Nat := 0
  textState : LegacyTextState := LegacyTextState.default
  reset : Option Bool := none
  defaultText : Option String := none
  pendingText : Option String := none
  resolvedText : Option String := none
  rejectedText : Option String := none
  isDestroyed : Bool := false
deriving DecidableEq, Repr

/-- Legacy `icon` computed property (part_000 lines 75-81): active picks
iconActive, otherwise iconInactive. -/
def LegacyButton.icon (b : LegacyButton) : Option String :=
  if b.active then b.iconActive else b.iconInactive

/-- Legacy `resetState` (part_000 lines 112-114): set textState 'default'. -/
def LegacyButton.resetState (b : LegacyButton) : LegacyButton :=
  { b with textState := LegacyTextState.default }

/-- Legacy `resetObserver` (part_000 lines 116-120): when `reset` is
truthy, call resetState. -/
def LegacyButton.resetObserver (b : LegacyButton) : LegacyButton :=
  if b.reset.getD false then b.resetState else b

/-- The property named `${textState}Text` for each legacy state. -/
def LegacyButton.textFor (b : LegacyButton) : LegacyTextState → Option String
  | LegacyTextState.default => b.defaultText
  | LegacyTextState.pending => b.pendingText
  | LegacyTextState.resolved => b.resolvedText
  | LegacyTextState.rejected => b.rejectedText

/-- Legacy `text` computed property (part_000 lines 122-124):
`getWithDefault(textState + 'Text', defaultText)`: the per-state property
unless it is undefined, else defaultText. -/
def LegacyButton.text (b : LegacyButton) : Option String :=
  match b.textFor b.textState with
  | some s => some s
  | none => b.defaultText

/-- Observable result of the synchronous part of the legacy `click`
handler: the component afterwards, and whether `sendAction` was reached. -/
structure LegacyDispatch where
  button : LegacyButton
  actionSent : Bool
deriving DecidableEq, Repr

/-- Legacy `click` handler (part_000 lines 134-153): if `toggle`, flip
`active` first; then send the action with the value, the event and the
manual settlement callback. Propagation of the event is not touched. -/
def LegacyButton.click (b : LegacyButton) : LegacyDispatch :=
  let b1 := if b.toggle then { b with active := !b.active } else b
  { button := b1, actionSent := true }

/-- The success handler the legacy callback registers on the promise
(part_000 lines 143-145): set textState 'resolved', unconditionally. -/
def LegacyButton.onResolve (b : LegacyButton) : LegacyButton :=
  { b with textState := LegacyTextState.resolved }

/-- The failure handler the legacy callback registers on the promise
(part_000 lines 146-148): set textState 'rejected', unconditionally. -/
def LegacyButton.onRejectFn (b : LegacyButton) : LegacyButton :=
  { b with textState := LegacyTextState.rejected }

/-- The manual settlement callback passed to the action (part_000
lines 139-151): given a truthy promise, set textState 'pending' and
register the two settlement handlers; given a falsy value, do nothing.
Returns the component and whether handlers were registered. -/
def LegacyButton.settlementCallback (b : LegacyButton) (promiseTruthy : Bool) :
    LegacyButton × Bool :=
  if promiseTruthy then
    ({ b with textState := LegacyTextState.pending }, true)
  else
    (b, false)

/-- Delivery of a settlement to the legacy handlers. -/
def LegacyButton.settle (b : LegacyButton) : Outcome → LegacyButton
  | Outcome.success => b.onResolve
  | Outcome.failure => b.onRejectFn

/-- Abstraction from the legacy textState names to the modern state names:
'resolved' corresponds to 'fulfilled', the others coincide. -/
def LegacyTextState.abs : LegacyTextState → BtnState
  | LegacyTextState.default => BtnState.default
  | LegacyTextState.pending => BtnState.pending
  | LegacyTextState.resolved => BtnState.fulfilled
  | LegacyTextState.rejected => BtnState.rejected

/-! Claim theorems. -/

/-- Concrete pending button with preventConcurrency left at its default. -/
def bC1 : Button :=
  { state := BtnState.pending, onClick := some CbReturn.thenable }

/-- C1: for every activation dispatched while state is pending, with
preventConcurrency true and no disabled override un-disabling the button,
the external callback is not invoked and the component is unchanged; this
holds at the activation gate and also inside the click handler itself. -/
theorem pending_activation_suppressed (b : Button)
    (hpc : b.preventConcurrency = true) (hp : b.state = BtnState.pending)
    (hd : b._disabled ≠ some false) :
    b.activate.invoked = false ∧ b.activate.button = b ∧
    b.handleClick.invoked = false ∧ b.handleClick.button = b := by
  have hdis : b.__disabled = true := by
    unfold Button.__disabled
    rcases h : b._disabled with _ | d
    · simp [Button.isPending, hp, hpc]
    · rcases d
      · exact absurd h hd
      · rfl
  have hclick : b.handleClick.invoked = false ∧ b.handleClick.button = b := by
    rcases hoc : b.onClick with _ | ret
    · simp [Button.handleClick, hoc]
    · simp [Button.handleClick, hoc, Button.isPending, hp, hpc]
  exact ⟨by simp [Button.activate, hdis], by simp [Button.activate, hdis],
    hclick.1, hclick.2⟩

/-- C1 witness: the suppression at the concrete pending button. -/
theorem pending_activation_suppressed_witness :
    bC1.preventConcurrency = true ∧ bC1.state = BtnState.pending ∧
    bC1._disabled ≠ some false ∧
    bC1.activate.invoked = false ∧ bC1.activate.button = bC1 ∧
    bC1.handleClick.invoked = false :=
  ⟨rfl, rfl, by decide,
   (pending_activation_suppressed bC1 rfl rfl (by decide)).1,
   (pending_activation_suppressed bC1 rfl rfl (by decide)).2.1,
   (pending_activation_suppressed bC1 rfl rfl (by decide)).2.2.1⟩

/-- Concrete destroyed legacy button, pending at teardown. -/
def bC2L : LegacyButton :=
  { textState := LegacyTextState.pending, isDestroyed := true }

/-- C2 counterexample: in the legacy component the settlement handlers are
not guarded by a liveness flag, so a settlement that fires after teardown
does mutate the state field. -/
theorem teardown_settlement_mutates_legacy :
    bC2L.isDestroyed = true ∧
    (bC2L.settle Outcome.success).textState ≠ bC2L.textState := by
  decide

/-- C2 amended: in the modern component every settlement delivered after
teardown is a no-op: the handlers read the liveness flag and leave the
component unchanged, surfacing no error. -/
theorem modern_teardown_settlement_noop (b : Button)
    (h : b.isDestroyed = true) (o : Outcome) :
    b.settle o = b := by
  cases o <;>
    simp [Button.settle, Button.onFulfill, Button.onReject, h]

/-- Concrete destroyed modern button, pending at teardown. -/
def bC2 : Button := { state := BtnState.pending, isDestroyed := true }

/-- C2 witness: a success settlement on the destroyed modern button leaves
it unchanged. -/
theorem modern_teardown_settlement_noop_witness :
    bC2.isDestroyed = true ∧ bC2.settle Outcome.success = bC2 :=
  ⟨rfl, modern_teardown_settlement_noop bC2 rfl Outcome.success⟩

/-- Concrete idle button with the disabled override set and a callback
configured. -/
def bC3 : Button := { _disabled := some true, onClick := some CbReturn.thenable }

/-- C3: with the disabled override set to true, an activation never invokes
the external callback and performs no state transition, from any current
state including the idle (default) state. -/
theorem disabled_override_suppresses (b : Button)
    (h : b._disabled = some true) :
    b.activate.invoked = false ∧ b.activate.button = b := by
  have hdis : b.__disabled = true := by
    unfold Button.__disabled
    rw [h]
  exact ⟨by simp [Button.activate, hdis], by simp [Button.activate, hdis]⟩

/-- C3 witness: the suppression at the concrete idle overridden button. -/
theorem disabled_override_suppresses_witness :
    bC3._disabled = some true ∧ bC3.state = BtnState.default ∧
    bC3.activate.invoked = false ∧ bC3.activate.button = bC3 :=
  ⟨rfl, rfl, (disabled_override_suppresses bC3 rfl).1,
   (disabled_override_suppresses bC3 rfl).2⟩

/-- Concrete inactive toggle button with both icons configured. -/
def bC4 : LegacyButton :=
  { toggle := true, active := false,
    iconActive := some "star-filled", iconInactive := some "star-empty" }

/-- C4: with toggle enabled, the click handler flips active before the
action dispatch, so the component the rest of the dispatch sees carries the
negated flag; starting inactive, the resolved icon after one activation is
iconActive. -/
theorem toggle_flips_before_action (b : LegacyButton)
    (ht : b.toggle = true) :
    b.click.actionSent = true ∧ b.click.button.active = !b.active ∧
    (b.active = false → b.click.button.icon = b.iconActive) := by
  refine ⟨rfl, by simp [LegacyButton.click, ht], fun ha => ?_⟩
  simp [LegacyButton.click, LegacyButton.icon, ht, ha]

/-- C4 witness: one activation of the concrete toggle button flips active
to true and resolves the icon to the active icon. -/
theorem toggle_flips_before_action_witness :
    bC4.toggle = true ∧ bC4.active = false ∧
    bC4.click.button.active = !bC4.active ∧
    bC4.click.button.icon = bC4.iconActive ∧
    bC4.click.button.icon = some "star-filled" :=
  ⟨rfl, rfl, (toggle_flips_before_action bC4 rfl).2.1,
   (toggle_flips_before_action bC4 rfl).2.2 rfl, by decide⟩

/-- Concrete button with a callback configured and bubble false. -/
def bC5 : Button := { onClick := some CbReturn.nonThenable, bubble := false }

/-- C5: whenever the click handler runs with a callback configured and
bubble false, propagation of the originating event is stopped, on every
branch: concurrency-suppressed, thenable return, or non-thenable return. -/
theorem no_bubble_stops_propagation (b : Button) (r : CbReturn)
    (h : b.onClick = some r) (hb : b.bubble = false) :
    b.handleClick.stoppedPropagation = true := by
  unfold Button.handleClick
  rw [h]
  simp [hb]

/-- C5 witness: propagation is stopped at the concrete button. -/
theorem no_bubble_stops_propagation_witness :
    bC5.onClick = some CbReturn.nonThenable ∧ bC5.bubble = false ∧
    bC5.handleClick.stoppedPropagation = true :=
  ⟨rfl, rfl, no_bubble_stops_propagation bC5 CbReturn.nonThenable rfl rfl⟩

/-- Concrete pending button whose pendingText is configured as the empty
string. -/
def bC6x : Button :=
  { state := BtnState.pending,
    args := { pendingText := some "", defaultText := some "Save" } }

/-- C6 counterexample: pendingText is configured (the empty string) while
the state is pending, yet the resolved text is defaultText rather than the
configured per-state text, because the getter uses JS truthiness. -/
theorem configured_empty_text_ignored :
    bC6x.args.pendingText = some "" ∧ bC6x.state = BtnState.pending ∧
    bC6x.text = some "Save" ∧ bC6x.text ≠ bC6x.args.pendingText := by
  decide

/-- C6 amended: for every state, a per-state text configured as a
non-empty string resolves to itself; an absent per-state text, and also
one configured as the empty string, resolves to defaultText. -/
theorem text_resolution (b : Button) (t : String) :
    (b.args.textFor b.state = some t → t ≠ "" → b.text = some t) ∧
    (b.args.textFor b.state = none → b.text = b.args.defaultText) ∧
    (b.args.textFor b.state = some "" → b.text = b.args.defaultText) := by
  refine ⟨fun h ht => ?_, fun h => ?_, fun h => ?_⟩
  · simp [Button.text, jsOrStr, h, ht]
  · simp [Button.text, jsOrStr, h]
  · simp [Button.text, jsOrStr, h]

/-- Concrete pending button with a non-empty pendingText configured. -/
def bC6 : Button :=
  { state := BtnState.pending,
    args := { pendingText := some "Saving", defaultText := some "Save" } }

/-- C6 witness: the configured pending text resolves to itself. -/
theorem text_resolution_witness :
    bC6.args.textFor bC6.state = some "Saving" ∧ bC6.text = some "Saving" :=
  ⟨rfl, (text_resolution bC6 "Saving").1 rfl (by decide)⟩

/-- Concrete active button whose icon override is the empty string. -/
def bC7x : Button :=
  { active := true, iconActive := some "star-filled",
    args := { icon := some "" } }

/-- C7 counterexample: the icon override is set (to the empty string) yet
the resolved icon is the active icon rather than the override, because the
getter uses JS truthiness. -/
theorem configured_empty_icon_ignored :
    bC7x.args.icon = some "" ∧ bC7x.icon = some "star-filled" ∧
    bC7x.icon ≠ bC7x.args.icon := by
  decide

/-- C7 amended: an icon override set to a non-empty string always wins;
when the override is absent, and also when it is the empty string, the
resolved icon is iconActive if active and iconInactive otherwise. -/
theorem icon_resolution (b : Button) (t : String) :
    (b.args.icon = some t → t ≠ "" → b.icon = some t) ∧
    (b.args.icon = none →
      b.icon = (if b.active then b.iconActive else b.iconInactive)) ∧
    (b.args.icon = some "" →
      b.icon = (if b.active then b.iconActive else b.iconInactive)) := by
  refine ⟨fun h ht => ?_, fun h => ?_, fun h => ?_⟩
  · simp [Button.icon, jsOrStr, h, ht]
  · simp [Button.icon, jsOrStr, h]
  · simp [Button.icon, jsOrStr, h]

/-- Concrete inactive button with a non-empty icon override configured. -/
def bC7 : Button :=
  { active := false, iconInactive := some "star-empty",
    args := { icon := some "glyphicon-download" } }

/-- C7 witness: the configured icon override resolves to itself. -/
theorem icon_resolution_witness :
    bC7.args.icon = some "glyphicon-download" ∧
    bC7.icon = some "glyphicon-download" :=
  ⟨rfl, (icon_resolution bC7 "glyphicon-download").1 rfl (by decide)⟩

/-- C8: reset forces the idle (default) state from every current state,
in both the modern and the legacy component, and is idempotent. -/
theorem reset_always_idle_and_idempotent :
    (∀ b : Button, b.resetState.state = BtnState.default) ∧
    (∀ b : Button, b.resetState.resetState = b.resetState) ∧
    (∀ b : LegacyButton, b.resetState.textState = LegacyTextState.default) ∧
    (∀ b : LegacyButton, b.resetState.resetState = b.resetState) :=
  ⟨fun _ => rfl, fun _ => rfl, fun _ => rfl, fun _ => rfl⟩

/-- C9: the legacy three-argument convention (manual settlement callback)
and the modern single-argument convention (returned thenable) drive the
state through the same sequence: both enter pending, and a settlement
leaves both in corresponding states under the renaming of legacy
'resolved' to modern 'fulfilled'. -/
theorem legacy_modern_same_state_sequence (bm : Button) (bl : LegacyButton)
    (o : Outcome) (hcb : bm.onClick = some CbReturn.thenable)
    (hg : (!bm.preventConcurrency || !bm.isPending) = true)
    (hlive : bm.isDestroyed = false) :
    bm.handleClick.registered = true ∧
    bm.handleClick.button.state = BtnState.pending ∧
    (bl.settlementCallback true).2 = true ∧
    ((bl.settlementCallback true).1.textState).abs =
      bm.handleClick.button.state ∧
    (((bl.settlementCallback true).1.settle o).textState).abs =
      (bm.handleClick.button.settle o).state := by
  have hbtn : bm.handleClick =
      { button := { bm with state := BtnState.pending }, invoked := true,
        registered := true, stoppedPropagation := !bm.bubble } := by
    unfold Button.handleClick
    rw [hcb]
    simp [hg, hlive]
  refine ⟨by rw [hbtn], by rw [hbtn], rfl, by rw [hbtn]; rfl, ?_⟩
  rw [hbtn]
  cases o <;>
    simp [Button.settle, Button.onFulfill, Button.onReject, hlive,
      LegacyButton.settle, LegacyButton.onResolve, LegacyButton.onRejectFn,
      LegacyButton.settlementCallback, LegacyTextState.abs]

/-- Concrete live idle button whose callback returns a thenable, and a
concrete live legacy button. -/
def bC9 : Button := { onClick := some CbReturn.thenable }

/-- Concrete legacy button used for the refinement witness. -/
def bC9L : LegacyButton := {}

/-- C9 witness: at the concrete pair and a success settlement, both
conventions pass through pending and end in corresponding states. -/
theorem legacy_modern_same_state_sequence_witness :
    bC9.onClick = some CbReturn.thenable ∧
    bC9.handleClick.button.state = BtnState.pending ∧
    (((bC9L.settlementCallback true).1.settle Outcome.success).textState).abs =
      (bC9.handleClick.button.settle Outcome.success).state :=
  ⟨rfl,
   (legacy_modern_same_state_sequence bC9 bC9L Outcome.success rfl (by decide)
     rfl).2.1,
   (legacy_modern_same_state_sequence bC9 bC9L Outcome.success rfl (by decide)
     rfl).2.2.2.2⟩

/-- Concrete button with no callback configured and bubble false. -/
def bC10 : Button := { onClick := none, bubble := false }

/-- C10: with no onClick configured the click handler returns immediately:
the component is unchanged, the callback is not invoked, and propagation is
not stopped even though bubble is false. -/
theorem no_onclick_early_return (b : Button) (h : b.onClick = none) :
    b.handleClick.button = b ∧ b.handleClick.invoked = false ∧
    b.handleClick.stoppedPropagation = false := by
  unfold Button.handleClick
  rw [h]
  exact ⟨rfl, rfl, rfl⟩

/-- C10 witness: the early return at the concrete callback-less button. -/
theorem no_onclick_early_return_witness :
    bC10.onClick = none ∧ bC10.bubble = false ∧
    bC10.handleClick.button = bC10 ∧
    bC10.handleClick.stoppedPropagation = false :=
  ⟨rfl, rfl, (no_onclick_early_return bC10 rfl).1,
   (no_onclick_early_return bC10 rfl).2.2⟩

end EmberBootstrap
